import Mathlib

/-!
Verification development for the `cltl-emissor-data` repository: a shallow
embedding of `EmissorDataFileStorage` (src/cltl/emissordata/file_storage.py)
and the Flask routes of `EmissorDataService`
(src/cltl_service/emissordata/service.py), with theorems settling the frozen
claims about scenario lifecycle, signal merge, mention resolution, and the
HTTP lookup endpoints.

Python dictionaries (`self._signals`, `self._signal_idx`) are modelled as
association lists that preserve insertion order and keep keys unique, matching
CPython dict semantics.  Python exceptions are modelled by an explicit
`PyError` type; every mutating operation returns the post-state paired with an
optional raised error, because in Python an exception propagates while the
mutations already performed on `self` persist.
-/

namespace EmissorData

/-- Python exceptions that the embedded code can raise. -/
inductive PyError where
  | keyError (key : String)
  | valueError (msg : String)
  | typeError (msg : String)
  | indexError
  | attributeError (attr : String)
  deriving DecidableEq, Repr

/-- Decidable equality for `Except` results, used to evaluate the embedded
fallible operations on concrete inputs. -/
instance {ε α : Type} [DecidableEq ε] [DecidableEq α] :
    DecidableEq (Except ε α) := fun x y =>
  match x, y with
  | Except.ok a, Except.ok b => decidable_of_iff (a = b) (by simp)
  | Except.error a, Except.error b => decidable_of_iff (a = b) (by simp)
  | Except.ok _, Except.error _ => isFalse (fun h => Except.noConfusion h)
  | Except.error _, Except.ok _ => isFalse (fun h => Except.noConfusion h)

/-- Lookup in a Python-dict-like association list: value of the first entry
with the given key. -/
def lookupA {α : Type} (d : List (String × α)) (k : String) : Option α :=
  match d with
  | [] => none
  | (k', v) :: rest => if k' = k then some v else lookupA rest k

/-- Python dict assignment `d[k] = v`: replace the value at `k` in place if the
key is present, otherwise append the new entry at the end (insertion order). -/
def insertA {α : Type} (d : List (String × α)) (k : String) (v : α) :
    List (String × α) :=
  match d with
  | [] => [(k, v)]
  | (k', v') :: rest =>
      if k' = k then (k, v) :: rest else (k', v') :: insertA rest k v

/-- Number of entries with the given key (1 or 0 for a well-formed dict). -/
def countKey {α : Type} (d : List (String × α)) (k : String) : Nat :=
  match d with
  | [] => 0
  | (k', _) :: rest => (if k' = k then 1 else 0) + countKey rest k

/-- `emissor.representation.scenario.Modality` members used by `add_signal`;
`video` stands for the members outside {TEXT, AUDIO, IMAGE} that hit the
unsupported-modality branch. -/
inductive Modality where
  | text
  | audio
  | image
  | video
  deriving DecidableEq, Repr

/-- `TemporalRuler`: the `signal.time` object (container id, start, end).
`end` is a Lean keyword, hence `end_`. -/
structure TemporalRuler where
  container_id : String
  start : Option Int
  end_ : Option Int
  deriving DecidableEq, Repr

/-- Python truthiness of the `signal.time.end` value: `None` and `0` are
falsy, any other timestamp is truthy (`if signal.time.end:` in the source). -/
def truthyEnd (e : Option Int) : Bool :=
  match e with
  | none => false
  | some v => v != 0

/-- A segment ruler (`MultiIndex` / `Index`): the code reads only the
container id (`mention.segment[0].container_id`) and, inside the abstracted
media fetch, the bounds. -/
structure Segment where
  container_id : String
  bounds : List Int
  deriving DecidableEq, Repr

/-- An annotation carried by a mention.  `_add_mention` duck-types:
`isinstance(annotation, Container)` and `isinstance(annotation.value,
Container)`; those two runtime checks are modelled as capability flags, with
the ids the corresponding branches would register. -/
structure Annot where
  id : String
  isContainer : Bool
  valueIsContainer : Bool
  valueId : String
  deriving DecidableEq, Repr

/-- `emissor.representation.scenario.Mention`. -/
structure Mention where
  id : String
  segment : List Segment
  annotations : List Annot
  deriving DecidableEq, Repr

/-- `emissor.representation.scenario.Signal`: the fields `file_storage.py`
reads and that `_update` iterates over (`vars(update_obj)`).  `files` is
`Option (List String)` because the code distinguishes Python `None` from an
empty list. -/
structure Signal where
  id : String
  ruler : Segment
  time : TemporalRuler
  modality : Modality
  files : Option (List String)
  mentions : List Mention
  deriving DecidableEq, Repr

/-- `emissor.representation.scenario.Scenario` descriptor as used by
`start_scenario` / `stop_scenario`. -/
structure Scenario where
  id : String
  start : Option Int
  end_ : Option Int
  context : String
  deriving DecidableEq, Repr

/-- The scenario controller returned by `ScenarioStorage.create_scenario`:
the scenario document plus its append log.  `appended` records the ids passed
to `controller.append_signal`; the document holds references to the same
signal objects that live in the `_signals` table (Python aliasing), so the
log stores ids. -/
structure Controller where
  scenario : Scenario
  appended : List String
  deriving DecidableEq, Repr

/-- The mutable state of `EmissorDataFileStorage`: `_controller`, `_signals`,
`_signal_idx`, `_is_modified`. -/
structure StorageState where
  controller : Option Controller
  signals : List (String × Signal)
  signal_idx : List (String × String)
  is_modified : Bool
  deriving DecidableEq, Repr

/-- `_update(obj, update_obj)`: for every field of the update object, if the
value is truthy, overwrite the field on `obj`.  Truthiness per field of
`Signal`: `id` truthy iff non-empty string; `ruler`, `time` and `modality`
are objects/enum members, always truthy; `files` truthy iff a non-empty list
(`None` and `[]` are falsy); `mentions` truthy iff non-empty. -/
def update_fields (obj update_obj : Signal) : Signal :=
  { id := if update_obj.id ≠ "" then update_obj.id else obj.id
    ruler := update_obj.ruler
    time := update_obj.time
    modality := update_obj.modality
    files := match update_obj.files with
      | some (f :: fs) => some (f :: fs)
      | _ => obj.files
    mentions := if update_obj.mentions ≠ [] then update_obj.mentions
                else obj.mentions }

/-- Python `str.replace(pattern, '')`: remove every left-to-right,
non-overlapping occurrence of a non-empty pattern from a character list.
The `fuel` argument (instantiated with the list length) makes the recursion
structural so it evaluates inside the kernel; Lean core's `String.replace`
computes the same value but its loop is not reducible. -/
def remove_occurrences (pattern : List Char) : Nat → List Char → List Char
  | 0, s => s
  | _ + 1, [] => []
  | fuel + 1, c :: cs =>
      if pattern.isPrefixOf (c :: cs) ∧ 1 ≤ pattern.length then
        remove_occurrences pattern fuel (cs.drop (pattern.length - 1))
      else
        c :: remove_occurrences pattern fuel cs

/-- The `relative_path` computed by `_destination_path(url, postfix)`:
`url.replace('cltl-storage:', '')` with the extension appended.  The absolute
destination path and the `os.makedirs` call are file-system I/O outside the
state model. -/
def destination_relative (url : String) (suffix : String) : String :=
  String.mk (remove_occurrences "cltl-storage:".data url.data.length url.data)
    ++ "." ++ suffix

/-- `_store_audio_files`: loop over `audio_signal.files`; each iteration
computes the relative path, then tries `_store_audio` (success or failure of
the fetch/convert step is given by the `fetchOk` oracle; on failure the
exception is caught and logged).  `stored.append(relative_path)` sits outside
the `try`/`except` in the source, so the relative path is appended whether or
not the store succeeded. -/
def store_audio_files (fetchOk : String → Bool) (files : List String) :
    List String :=
  files.foldl
    (fun stored url =>
      let relative_path := destination_relative url "wav"
      if fetchOk url then
        stored ++ [relative_path]
      else
        stored ++ [relative_path])
    []

/-- `_store_image_files`: same loop shape as `_store_audio_files` with the
`png` extension; the append is likewise outside the `try`/`except`. -/
def store_image_files (fetchOk : String → Bool) (files : List String) :
    List String :=
  files.foldl
    (fun stored url =>
      let relative_path := destination_relative url "png"
      if fetchOk url then
        stored ++ [relative_path]
      else
        stored ++ [relative_path])
    []

/-- The `stored_files` computation of `add_signal` (lines 119-128): `None`
unless the signal is finalized (`if signal.time.end:` — Python truthiness);
`[]` for text, the stored relative paths for audio/image, and still `None`
for an unsupported modality (only an error is logged).  Iterating a `None`
file list raises `TypeError` in Python. -/
def compute_stored_files (fetchOk : String → Bool) (signal : Signal) :
    Except PyError (Option (List String)) :=
  if truthyEnd signal.time.end_ then
    match signal.modality with
    | Modality.text => Except.ok (some [])
    | Modality.audio =>
        match signal.files with
        | none => Except.error (PyError.typeError "NoneType object is not iterable")
        | some fs => Except.ok (some (store_audio_files fetchOk fs))
    | Modality.image =>
        match signal.files with
        | none => Except.error (PyError.typeError "NoneType object is not iterable")
        | some fs => Except.ok (some (store_image_files fetchOk fs))
    | Modality.video => Except.ok none
  else
    Except.ok none

/-- `add_signal(signal)`.  The defensive `unmarshal(marshal(...))` round trip
is the identity on well-typed signals (it can only fail on objects violating
the `Signal` data contract, which the typed embedding excludes).  With no
controller the signal is logged and dropped; a container-id mismatch raises
`ValueError`; otherwise stored files are computed, `signal.files` is
replaced, and the signal is merged into an existing entry with the same id
(`_update`) or inserted and appended to the document.  Every raising path
occurs before any state mutation, so on error the state is returned
unchanged. -/
def add_signal (fetchOk : String → Bool) (st : StorageState) (signal : Signal) :
    StorageState × Option PyError :=
  match st.controller with
  | none => (st, none)
  | some ctl =>
      if ctl.scenario.id ≠ signal.time.container_id then
        (st, some (PyError.valueError
          ("Scenario " ++ signal.ruler.container_id ++
           " is not the current scenario (" ++ ctl.scenario.id ++
           ") for signal " ++ signal.id)))
      else
        match compute_stored_files fetchOk signal with
        | Except.error e => (st, some e)
        | Except.ok stored_files =>
            let signal2 : Signal := { signal with files := stored_files }
            match lookupA st.signals signal2.id with
            | some existing =>
                ({ st with
                   signals := insertA st.signals signal2.id
                     (update_fields existing signal2)
                   is_modified := true }, none)
            | none =>
                ({ st with
                   controller := some
                     { ctl with appended := ctl.appended ++ [signal2.id] }
                   signals := insertA st.signals signal2.id signal2
                   is_modified := true }, none)

/-- `start_scenario(scenario)`: raises `ValueError` whenever a controller is
already present — the id of the new scenario is never compared with the
current one; on success creates the controller and persists (`flush` after
setting the dirty flag, hence `is_modified = false`). -/
def start_scenario (st : StorageState) (scenario : Scenario) :
    StorageState × Option PyError :=
  match st.controller with
  | some ctl =>
      (st, some (PyError.valueError
        ("Scenarion " ++ ctl.scenario.id ++ " is already started, tried to start "
         ++ scenario.id)))
  | none =>
      ({ st with
         controller := some { scenario := scenario, appended := [] }
         is_modified := false }, none)

/-- `stop_scenario(scenario)`: raises `ValueError` unless a controller with
the matching id is open; otherwise sets the end timestamp, flushes, copies
the rdf logs (file-system I/O outside the state), then sets
`self._controller = None` and `self._signals = dict()`.  The source does NOT
reset `self._signal_idx`, so the element index survives into the next
scenario. -/
def stop_scenario (st : StorageState) (scenario : Scenario) :
    StorageState × Option PyError :=
  match st.controller with
  | none =>
      (st, some (PyError.valueError
        ("Scenario " ++ scenario.id ++ " is not started, current scenario is None")))
  | some ctl =>
      if ctl.scenario.id ≠ scenario.id then
        (st, some (PyError.valueError
          ("Scenario " ++ scenario.id ++ " is not started, current scenario is "
           ++ ctl.scenario.id)))
      else
        ({ controller := none
           signals := []
           signal_idx := st.signal_idx
           is_modified := false }, none)

/-- The `ValueError` message of `_add_mention` when the container id is
neither a signal id nor in the element index — it names the container id. -/
def container_not_found_msg (container_id : String) (scenario_id : String)
    (mention_id : String) : String :=
  "Container " ++ container_id ++ " not found for scenario " ++ scenario_id ++
  " and mention " ++ mention_id

/-- The scenario id printed in `_add_mention`'s error message
(`self._controller.scenario.id if self._controller else None`). -/
def current_scenario_repr (st : StorageState) : String :=
  match st.controller with
  | some ctl => ctl.scenario.id
  | none => "None"

/-- The element-index registrations performed by `_add_mention` after the
append: `self._signal_idx[mention.id] = signal_id`, then for each annotation
of the mention, register `annotation.id` if the annotation is a `Container`,
else `annotation.value.id` if its value is a `Container`. -/
def register_mention_ids (idx : List (String × String)) (mention : Mention)
    (signal_id : String) : List (String × String) :=
  mention.annotations.foldl
    (fun acc ann =>
      if ann.isContainer then insertA acc ann.id signal_id
      else if ann.valueIsContainer then insertA acc ann.valueId signal_id
      else acc)
    (insertA idx mention.id signal_id)

/-- `_add_mention(mention)`: resolve `mention.segment[0].container_id`
directly in `_signals`, else through `_signal_idx`, else raise `ValueError`
naming the container id; on success append the mention to the owning
signal's mention list and register the mention id and its container-typed
annotation ids in the index.  An empty segment list raises `IndexError`; a
stale index entry whose owner is no longer in `_signals` raises `KeyError`
at `self._signals[signal_id]`.  All raising paths precede the mutations. -/
def add_mention_core (st : StorageState) (mention : Mention) :
    StorageState × Option PyError :=
  match mention.segment with
  | [] => (st, some PyError.indexError)
  | seg :: _ =>
      let container_id := seg.container_id
      let resolved : Except PyError String :=
        match lookupA st.signals container_id with
        | some _ => Except.ok container_id
        | none =>
            match lookupA st.signal_idx container_id with
            | some sid => Except.ok sid
            | none => Except.error (PyError.valueError
                (container_not_found_msg container_id
                  (current_scenario_repr st) mention.id))
      match resolved with
      | Except.error e => (st, some e)
      | Except.ok signal_id =>
          match lookupA st.signals signal_id with
          | none => (st, some (PyError.keyError signal_id))
          | some sig =>
              ({ st with
                 signals := insertA st.signals signal_id
                   { sig with mentions := sig.mentions ++ [mention] }
                 signal_idx := register_mention_ids st.signal_idx mention signal_id
                 is_modified := true }, none)

/-- `add_mention(mention)`: logged no-op without a controller, otherwise
`_add_mention`. -/
def add_mention (st : StorageState) (mention : Mention) :
    StorageState × Option PyError :=
  match st.controller with
  | none => (st, none)
  | some _ => add_mention_core st mention

/-- The loop body of `add_mentions`: apply `_add_mention` to each mention in
order; the first raised exception propagates, aborting the rest of the
batch, while the mutations of the already-processed prefix persist. -/
def add_mentions_loop : StorageState → List Mention →
    StorageState × Option PyError
  | st, [] => (st, none)
  | st, m :: ms =>
      match add_mention_core st m with
      | (st', none) => add_mentions_loop st' ms
      | (st', some e) => (st', some e)

/-- `add_mentions(mentions)`: logged no-op without a controller, otherwise
the sequential loop over the batch. -/
def add_mentions (st : StorageState) (ms : List Mention) :
    StorageState × Option PyError :=
  match st.controller with
  | none => (st, none)
  | some _ => add_mentions_loop st ms

/-- The ids that `register_mention_ids` writes for the annotations of a
mention: per annotation, the container annotation's id, else the container
value's id, else nothing — mirroring the `if`/`elif` of the `_add_mention`
registration loop. -/
def ann_container_ids : List Annot → List String
  | [] => []
  | a :: anns =>
      if a.isContainer then a.id :: ann_container_ids anns
      else if a.valueIsContainer then a.valueId :: ann_container_ids anns
      else ann_container_ids anns

/-- All ids `register_mention_ids` maps to the owning signal: the mention's
own id plus its container-typed annotation (or annotation-value) ids. -/
def registered_ids (m : Mention) : List String :=
  m.id :: ann_container_ids m.annotations

/-- The mentions of a batch resolve, in sequence, to the signal `s`: each
mention's head-segment container id is either `s` itself (direct signal-table
hit), or an id absent from the `signals0` table that an earlier mention of
the batch registered in the element index (its own id or a nested container
id), or that is listed in the initial `done` ids already mapped to `s`.
This is the hypothesis class for batches whose mentions attach to `s`
directly or transitively through the Element Index. -/
def chain_resolves (signals0 : List (String × Signal)) (s : String) :
    List String → List Mention → Prop
  | _, [] => True
  | done, m :: ms =>
      (∃ seg rest, m.segment = seg :: rest ∧
        (seg.container_id = s ∨
          (lookupA signals0 seg.container_id = none ∧
           seg.container_id ∈ done))) ∧
      chain_resolves signals0 s (done ++ registered_ids m) ms

/-- `get_current_scenario_id()`: the open scenario's id, or Python `None`. -/
def get_current_scenario_id (st : StorageState) : Option String :=
  match st.controller with
  | none => none
  | some ctl => some ctl.scenario.id

/-- `get_scenario_for_id(element_id)`: direct signal-table hit, else element
index followed by the signal-table lookup of the owner; a missing key in
either dict lookup raises `KeyError`.  Returns `signal.time.container_id`. -/
def get_scenario_for_id (st : StorageState) (element_id : String) :
    Except PyError String :=
  match lookupA st.signals element_id with
  | some sig => Except.ok sig.time.container_id
  | none =>
      match lookupA st.signal_idx element_id with
      | none => Except.error (PyError.keyError element_id)
      | some signal_id =>
          match lookupA st.signals signal_id with
          | none => Except.error (PyError.keyError signal_id)
          | some sig => Except.ok sig.time.container_id

/-- A Flask response as produced by the service's route handlers: a body
(Python `None` possible) and a status code. -/
structure HttpResponse where
  body : Option String
  status : Nat
  deriving DecidableEq, Repr

/-- Route `GET /<element_id>/scenario/id` (service.py lines 71-76):
`try: return self._storage.get_scenario_for_id(element_id), 200` and on
`KeyError` return `self._storage.get_current_scenario_id(), 404`.  Only
`KeyError` is caught; any other exception propagates. -/
def get_scenario_id_route (st : StorageState) (element_id : String) :
    Except PyError HttpResponse :=
  match get_scenario_for_id st element_id with
  | Except.ok scenario_id => Except.ok { body := some scenario_id, status := 200 }
  | Except.error (PyError.keyError _) =>
      Except.ok { body := get_current_scenario_id st, status := 404 }
  | Except.error e => Except.error e

/-- The attribute names `EmissorDataFileStorage` (and the
`EmissorDataStorage` API base class) define; Python attribute access on the
storage object succeeds exactly for these names. -/
def storage_method_names : List String :=
  ["from_config", "start_scenario", "update_scenario", "stop_scenario",
   "add_signal", "add_mention", "add_mentions", "get_signal",
   "get_current_scenario_id", "get_scenario_for_id", "flush"]

/-- The attribute name the route handler `get_current_scenario` invokes on
the storage object (service.py line 80): `get_current_scensario_id`. -/
def current_scenario_route_attr : String := "get_current_scensario_id"

/-- Route `GET /scenario/current/id` (service.py lines 78-81): the handler
looks up `current_scenario_route_attr` on the storage object; if the
attribute existed the call would return the current scenario id with status
200, otherwise Python raises `AttributeError`.  (Attribute lookup is
modelled by membership in `storage_method_names`.) -/
def get_current_scenario_route (st : StorageState) :
    Except PyError HttpResponse :=
  if storage_method_names.contains current_scenario_route_attr then
    Except.ok { body := get_current_scenario_id st, status := 200 }
  else
    Except.error (PyError.attributeError current_scenario_route_attr)

/-! ### Concrete fixtures used by witnesses and counterexamples -/

/-- Media fetch oracle that always succeeds. -/
def fetch_ok : String → Bool := fun _ => true

/-- Media fetch oracle that always fails (every `_store_audio` /
`_store_image` call raises and is caught). -/
def fetch_fail : String → Bool := fun _ => false

def sc_1 : Scenario :=
  { id := "sc_1", start := some 0, end_ := none, context := "" }

def sc_1_stop : Scenario :=
  { id := "sc_1", start := some 0, end_ := some 1, context := "" }

/-- Storage state right after construction: no controller, empty tables. -/
def empty_state : StorageState :=
  { controller := none, signals := [], signal_idx := [], is_modified := false }

/-- Storage state with scenario `sc_1` open and empty tables. -/
def open_state : StorageState :=
  { controller := some { scenario := sc_1, appended := [] }
    signals := [], signal_idx := [], is_modified := false }

def time_open : TemporalRuler :=
  { container_id := "sc_1", start := some 0, end_ := none }

def time_done : TemporalRuler :=
  { container_id := "sc_1", start := some 0, end_ := some 1 }

/-- Preliminary audio signal `s1` (end unset). -/
def prelim_s1 : Signal :=
  { id := "s1", ruler := { container_id := "s1", bounds := [0, 0, 1, 2] }
    time := time_open, modality := Modality.audio
    files := some ["cltl-storage:audio/a1"], mentions := [] }

/-- Finalizing update for signal `s1` (end set, no mentions). -/
def fin_s1 : Signal :=
  { id := "s1", ruler := { container_id := "s1", bounds := [0, 0, 1, 2] }
    time := time_done, modality := Modality.audio
    files := some ["cltl-storage:audio/a1"], mentions := [] }

/-- A container-typed annotation with id `tok_1`. -/
def ann_tok : Annot :=
  { id := "tok_1", isContainer := true, valueIsContainer := false
    valueId := "" }

/-- Mention `m_1` sitting directly on signal `s1`, carrying the container
annotation `tok_1`. -/
def mention_m1 : Mention :=
  { id := "m_1", segment := [{ container_id := "s1", bounds := [0, 0, 1, 1] }]
    annotations := [ann_tok] }

/-- Mention `m_2` sitting on the nested annotation container `tok_1`. -/
def mention_m2 : Mention :=
  { id := "m_2", segment := [{ container_id := "tok_1", bounds := [] }]
    annotations := [] }

/-- A mention carried by a finalizing signal event. -/
def mention_mf : Mention :=
  { id := "m_f", segment := [{ container_id := "s1", bounds := [] }]
    annotations := [] }

/-- Mention whose container id `nope` was never seen. -/
def mention_bad : Mention :=
  { id := "m_bad", segment := [{ container_id := "nope", bounds := [] }]
    annotations := [] }

/-- Finalizing update for `s1` that itself carries a mention list. -/
def fin_s1_with_mentions : Signal :=
  { fin_s1 with mentions := [mention_mf] }

/-- Preliminary text signal `t1` (end unset, no files). -/
def prelim_t1 : Signal :=
  { id := "t1", ruler := { container_id := "t1", bounds := [] }
    time := time_open, modality := Modality.text
    files := none, mentions := [] }

/-- Finalizing update for text signal `t1` (end set, no mentions). -/
def fin_t1 : Signal :=
  { id := "t1", ruler := { container_id := "t1", bounds := [] }
    time := time_done, modality := Modality.text
    files := none, mentions := [] }

/-- Finalized signal with an unsupported modality. -/
def video_signal : Signal :=
  { id := "v1", ruler := { container_id := "v1", bounds := [] }
    time := { container_id := "sc_1", start := some 0, end_ := some 1 }
    modality := Modality.video
    files := some ["cltl-storage:video/f1"], mentions := [] }

/-- Open-scenario state holding signal `s1` and a leaked index entry. -/
def state_with_s1 : StorageState :=
  { controller := some { scenario := sc_1, appended := ["s1"] }
    signals := [("s1", fin_s1)]
    signal_idx := []
    is_modified := false }

/-- The state reached from `state_with_s1` after attaching `mention_m1`:
the mention sits on `s1` and both `m_1` and its container annotation
`tok_1` are registered in the element index. -/
def state_after_m1 : StorageState :=
  { controller := some { scenario := sc_1, appended := ["s1"] }
    signals := [("s1", { fin_s1 with mentions := [mention_m1] })]
    signal_idx := [("m_1", "s1"), ("tok_1", "s1")]
    is_modified := true }

/-- Open-scenario state holding signal `s1` plus index entries for mention
`m_1` and its annotation container `tok_1`. -/
def leaked_state : StorageState :=
  { controller := some { scenario := sc_1, appended := ["s1"] }
    signals := [("s1", fin_s1)]
    signal_idx := [("m_1", "s1"), ("tok_1", "s1")]
    is_modified := false }

/-! ### Dictionary lemmas -/

theorem lookupA_insertA_self {α : Type} (d : List (String × α)) (k : String)
    (v : α) : lookupA (insertA d k v) k = some v := by
  induction d with
  | nil => simp [insertA, lookupA]
  | cons hd tl ih =>
      obtain ⟨k', v'⟩ := hd
      by_cases h : k' = k
      · simp [insertA, lookupA, h]
      · simp [insertA, lookupA, h, ih]

theorem lookupA_insertA_ne {α : Type} (d : List (String × α)) (k k2 : String)
    (v : α) (h : k2 ≠ k) : lookupA (insertA d k v) k2 = lookupA d k2 := by
  induction d with
  | nil => simp [insertA, lookupA, Ne.symm h]
  | cons hd tl ih =>
      obtain ⟨k', v'⟩ := hd
      by_cases hk : k' = k
      · subst hk
        simp [insertA, lookupA, Ne.symm h]
      · simp [insertA, lookupA, hk, ih]

theorem countKey_insertA_self {α : Type} (d : List (String × α)) (k : String)
    (v : α) : countKey (insertA d k v) k = max 1 (countKey d k) := by
  induction d with
  | nil => simp [insertA, countKey]
  | cons hd tl ih =>
      obtain ⟨k', v'⟩ := hd
      by_cases h : k' = k
      · subst h
        simp [insertA, countKey]
      · simp [insertA, countKey, h, ih]

theorem lookupA_eq_none_of_countKey_eq_zero {α : Type}
    (d : List (String × α)) (k : String) (h : countKey d k = 0) :
    lookupA d k = none := by
  induction d with
  | nil => rfl
  | cons hd tl ih =>
      obtain ⟨k', v'⟩ := hd
      by_cases hk : k' = k
      · simp [countKey, hk] at h
      · simp [countKey, hk] at h
        simp [lookupA, hk, ih h]

theorem countKey_pos_of_lookupA_some {α : Type} (d : List (String × α))
    (k : String) (v : α) (h : lookupA d k = some v) : 1 ≤ countKey d k := by
  induction d with
  | nil => simp [lookupA] at h
  | cons hd tl ih =>
      obtain ⟨k', v'⟩ := hd
      by_cases hk : k' = k
      · simp only [countKey, if_pos hk]
        omega
      · rw [lookupA, if_neg hk] at h
        have := ih h
        simp only [countKey, if_neg hk]
        omega

theorem countKey_insertA_of_present {α : Type} (d : List (String × α))
    (k : String) (v v0 : α) (h : lookupA d k = some v0) :
    countKey (insertA d k v) k = countKey d k := by
  have h1 := countKey_insertA_self d k v
  have h2 := countKey_pos_of_lookupA_some d k v0 h
  omega

/-! ### Media file-storage lemmas -/

/-- The store loop of `_store_audio_files` / `_store_image_files` appends the
relative path of every referenced file, independently of whether the
fetch/convert step succeeded: both branches of the caught exception leave the
same append. -/
theorem store_loop_eq (suffix : String) (fetchOk : String → Bool) :
    ∀ (files : List String) (init : List String),
      files.foldl
        (fun stored url =>
          let relative_path := destination_relative url suffix
          if fetchOk url then stored ++ [relative_path]
          else stored ++ [relative_path])
        init
      = init ++ files.map (fun url => destination_relative url suffix) := by
  have hfun :
      (fun (stored : List String) url =>
        let relative_path := destination_relative url suffix
        if fetchOk url then stored ++ [relative_path]
        else stored ++ [relative_path])
      = fun stored url => stored ++ [destination_relative url suffix] := by
    funext stored url
    by_cases h : fetchOk url <;> simp [h]
  rw [hfun]
  intro files
  induction files with
  | nil => intro init; simp
  | cons x xs ih =>
      intro init
      rw [List.foldl_cons, ih]
      simp

/-- `_store_audio_files` returns the relative paths of all referenced files,
independently of the fetch outcomes. -/
theorem store_audio_files_eq (fetchOk : String → Bool) (files : List String) :
    store_audio_files fetchOk files =
      files.map (fun url => destination_relative url "wav") := by
  rw [store_audio_files, store_loop_eq "wav" fetchOk files []]
  simp

/-- `_store_image_files` returns the relative paths of all referenced files,
independently of the fetch outcomes. -/
theorem store_image_files_eq (fetchOk : String → Bool) (files : List String) :
    store_image_files fetchOk files =
      files.map (fun url => destination_relative url "png") := by
  rw [store_image_files, store_loop_eq "png" fetchOk files []]
  simp

/-! ### `add_signal` unfolding lemmas -/

/-- `add_signal` on a fresh id inserts the processed signal into the table
and appends its id to the document. -/
theorem add_signal_insert (fetchOk : String → Bool) (st : StorageState)
    (ctl : Controller) (signal : Signal) (stored : Option (List String))
    (hctl : st.controller = some ctl)
    (hmatch : signal.time.container_id = ctl.scenario.id)
    (hstored : compute_stored_files fetchOk signal = Except.ok stored)
    (hnew : lookupA st.signals signal.id = none) :
    add_signal fetchOk st signal =
      ({ st with
         controller := some { ctl with appended := ctl.appended ++ [signal.id] }
         signals := insertA st.signals signal.id { signal with files := stored }
         is_modified := true }, none) := by
  simp [add_signal, hctl, hmatch, hstored, hnew]

/-- `add_signal` on an id already in the table merges via `_update` and does
not append to the document. -/
theorem add_signal_merge (fetchOk : String → Bool) (st : StorageState)
    (ctl : Controller) (signal existing : Signal)
    (stored : Option (List String))
    (hctl : st.controller = some ctl)
    (hmatch : signal.time.container_id = ctl.scenario.id)
    (hstored : compute_stored_files fetchOk signal = Except.ok stored)
    (hex : lookupA st.signals signal.id = some existing) :
    add_signal fetchOk st signal =
      ({ st with
         signals := insertA st.signals signal.id
           (update_fields existing { signal with files := stored })
         is_modified := true }, none) := by
  simp [add_signal, hctl, hmatch, hstored, hex]

/-! ### Element-index registration lemmas -/

/-- Lookup after the annotation-registration fold of `_add_mention`: ids in
`ann_container_ids` map to the owning signal, all other ids keep their
previous binding (every insert of the fold writes the same owner `s`). -/
theorem register_fold_lookup (s : String) (anns : List Annot) :
    ∀ (idx : List (String × String)) (cid : String),
      lookupA (anns.foldl
        (fun acc ann =>
          if ann.isContainer then insertA acc ann.id s
          else if ann.valueIsContainer then insertA acc ann.valueId s
          else acc) idx) cid
      = if cid ∈ ann_container_ids anns then some s else lookupA idx cid := by
  induction anns with
  | nil => intro idx cid; simp [ann_container_ids]
  | cons a anns ih =>
      intro idx cid
      rw [List.foldl_cons, ih]
      by_cases h1 : a.isContainer = true
      · by_cases h2 : cid ∈ ann_container_ids anns
        · simp [ann_container_ids, h1, h2]
        · by_cases h3 : cid = a.id
          · simp [ann_container_ids, h1, h2, h3, lookupA_insertA_self]
          · simp [ann_container_ids, h1, h2, h3,
              lookupA_insertA_ne _ _ _ _ h3]
      · by_cases h1' : a.valueIsContainer = true
        · by_cases h2 : cid ∈ ann_container_ids anns
          · simp [ann_container_ids, h1, h1', h2]
          · by_cases h3 : cid = a.valueId
            · simp [ann_container_ids, h1, h1', h2, h3, lookupA_insertA_self]
            · simp [ann_container_ids, h1, h1', h2, h3,
                lookupA_insertA_ne _ _ _ _ h3]
        · simp [ann_container_ids, h1, h1']

/-- Every id in `registered_ids m` maps to the owner after
`register_mention_ids`. -/
theorem register_lookup_mem (idx : List (String × String)) (m : Mention)
    (s cid : String) (h : cid ∈ registered_ids m) :
    lookupA (register_mention_ids idx m s) cid = some s := by
  rw [register_mention_ids, register_fold_lookup]
  rcases List.mem_cons.mp h with h1 | h1
  · by_cases h2 : cid ∈ ann_container_ids m.annotations
    · simp [h2]
    · simp [h1, h2, lookupA_insertA_self]
  · simp [h1]

/-- Ids outside `registered_ids m` keep their previous binding after
`register_mention_ids`. -/
theorem register_lookup_not_mem (idx : List (String × String)) (m : Mention)
    (s cid : String) (h : cid ∉ registered_ids m) :
    lookupA (register_mention_ids idx m s) cid = lookupA idx cid := by
  rw [register_mention_ids, register_fold_lookup]
  have h1 : cid ≠ m.id := fun he => h (he ▸ List.mem_cons_self _ _)
  have h2 : cid ∉ ann_container_ids m.annotations :=
    fun hm => h (List.mem_cons_of_mem _ hm)
  simp [h2, lookupA_insertA_ne _ _ _ _ h1]

/-! ### Mention accumulation -/

/-- Folding `_add_mention` over a batch whose mentions resolve to a signal
`s` present in the table — directly, or through element-index entries
registered by earlier mentions of the batch (or listed in `done` as already
mapped to `s`) — appends them, in arrival order, to that signal's mention
list; the controller and the key multiplicities of the signal table are
unchanged and no error is raised.  `signals0` is the signal table as seen
through lookups at keys other than `s`. -/
theorem add_mentions_loop_accumulates (signals0 : List (String × Signal))
    (s : String) :
    ∀ (ms : List Mention) (done : List String) (st : StorageState)
      (sig : Signal),
      lookupA st.signals s = some sig →
      (∀ cid, cid ≠ s → lookupA st.signals cid = lookupA signals0 cid) →
      (∀ cid, cid ∈ done → lookupA st.signal_idx cid = some s) →
      chain_resolves signals0 s done ms →
      ∃ st', add_mentions_loop st ms = (st', none) ∧
        st'.controller = st.controller ∧
        lookupA st'.signals s = some { sig with mentions := sig.mentions ++ ms } ∧
        countKey st'.signals s = countKey st.signals s := by
  intro ms
  induction ms with
  | nil =>
      intro done st sig hsig _ _ _
      refine ⟨st, rfl, rfl, ?_, rfl⟩
      simpa using hsig
  | cons m ms ih =>
      intro done st sig hsig hsigs hidx hchain
      have hchain2 : (∃ seg rest, m.segment = seg :: rest ∧
          (seg.container_id = s ∨
            (lookupA signals0 seg.container_id = none ∧
             seg.container_id ∈ done))) ∧
          chain_resolves signals0 s (done ++ registered_ids m) ms := hchain
      obtain ⟨⟨seg, rest, hseg, hres⟩, hchain'⟩ := hchain2
      have hstep : add_mention_core st m =
          ({ st with
             signals := insertA st.signals s
               { sig with mentions := sig.mentions ++ [m] }
             signal_idx := register_mention_ids st.signal_idx m s
             is_modified := true }, none) := by
        by_cases hcs : seg.container_id = s
        · simp [add_mention_core, hseg, hcs, hsig]
        · rcases hres with hcs' | ⟨hnone0, hdone⟩
          · exact absurd hcs' hcs
          · have hnone : lookupA st.signals seg.container_id = none := by
              rw [hsigs seg.container_id hcs]
              exact hnone0
            have hidxs : lookupA st.signal_idx seg.container_id = some s :=
              hidx seg.container_id hdone
            simp [add_mention_core, hseg, hnone, hidxs, hsig]
      obtain ⟨st', h1, h2, h3, h4⟩ := ih (done ++ registered_ids m)
        { st with
          signals := insertA st.signals s
            { sig with mentions := sig.mentions ++ [m] }
          signal_idx := register_mention_ids st.signal_idx m s
          is_modified := true }
        { sig with mentions := sig.mentions ++ [m] }
        (lookupA_insertA_self _ _ _)
        (fun cid hne => by
          show lookupA (insertA st.signals s _) cid = lookupA signals0 cid
          rw [lookupA_insertA_ne _ _ _ _ hne]
          exact hsigs cid hne)
        (fun cid hcid => by
          show lookupA (register_mention_ids st.signal_idx m s) cid = some s
          by_cases hreg : cid ∈ registered_ids m
          · exact register_lookup_mem _ _ _ _ hreg
          · rw [register_lookup_not_mem _ _ _ _ hreg]
            rcases List.mem_append.mp hcid with hd | hr
            · exact hidx cid hd
            · exact absurd hr hreg)
        hchain'
      refine ⟨st', ?_, h2, ?_, ?_⟩
      · rw [add_mentions_loop, hstep]
        exact h1
      · rw [h3]
        simp
      · rw [h4]
        exact countKey_insertA_of_present _ _ _ sig hsig

/-! ### Claim theorems -/

/-- C3: the claim states that after `stop_scenario` succeeds both the signal
table and the Element Index are empty.  The code clears only
`self._signals`; `self._signal_idx` is returned unchanged, so ids registered
during the closed scenario still resolve in the next one.  This theorem
evaluates the code's `stop_scenario` on a matching open scenario: the signal
table is emptied while the element index is preserved verbatim. -/
theorem stop_scenario_keeps_signal_idx (st : StorageState) (ctl : Controller)
    (sc : Scenario) (h : st.controller = some ctl)
    (hid : ctl.scenario.id = sc.id) :
    stop_scenario st sc =
      ({ controller := none, signals := [], signal_idx := st.signal_idx,
         is_modified := false }, none) := by
  simp [stop_scenario, h, hid]

/-- Witness for C3's theorem: stopping `sc_1` on a state whose element index
holds the entries for mention `m_1` and annotation `tok_1` leaves those two
entries in the index — it is not empty for the next scenario. -/
theorem stop_scenario_keeps_signal_idx_witness :
    leaked_state.controller = some { scenario := sc_1, appended := ["s1"] } ∧
    ({ scenario := sc_1, appended := ["s1"] } : Controller).scenario.id
      = sc_1_stop.id ∧
    stop_scenario leaked_state sc_1_stop =
      ({ controller := none, signals := [],
         signal_idx := [("m_1", "s1"), ("tok_1", "s1")],
         is_modified := false }, none) ∧
    ([("m_1", "s1"), ("tok_1", "s1")] : List (String × String)) ≠ [] := by
  refine ⟨rfl, rfl, ?_, by decide⟩
  exact stop_scenario_keeps_signal_idx leaked_state
    { scenario := sc_1, appended := ["s1"] } sc_1_stop rfl rfl

/-- C5: the claim states that a finalized signal with an unsupported
modality is skipped entirely — no signal-table entry, nothing appended to
the document.  The code only logs "Skip signal ... Unsupported modality" and
leaves `stored_files = None`; it then falls through to the insert branch, so
the signal IS stored (with `files = None`) and IS appended to the document.
This theorem evaluates `add_signal` on such a signal. -/
theorem unsupported_modality_signal_still_added (fetchOk : String → Bool)
    (st : StorageState) (ctl : Controller) (signal : Signal)
    (hctl : st.controller = some ctl)
    (hmatch : signal.time.container_id = ctl.scenario.id)
    (hend : truthyEnd signal.time.end_ = true)
    (hmod : signal.modality = Modality.video)
    (hnew : lookupA st.signals signal.id = none) :
    add_signal fetchOk st signal =
      ({ st with
         controller := some { ctl with appended := ctl.appended ++ [signal.id] }
         signals := insertA st.signals signal.id { signal with files := none }
         is_modified := true }, none) := by
  simp [add_signal, compute_stored_files, hctl, hmatch, hend, hmod, hnew]

/-- Witness for C5's theorem: the finalized video signal `v1` ends up in the
signal table and its id is appended to the persisted document. -/
theorem unsupported_modality_witness :
    open_state.controller = some { scenario := sc_1, appended := [] } ∧
    video_signal.time.container_id = sc_1.id ∧
    truthyEnd video_signal.time.end_ = true ∧
    video_signal.modality = Modality.video ∧
    lookupA open_state.signals video_signal.id = none ∧
    add_signal fetch_ok open_state video_signal =
      ({ controller := some { scenario := sc_1, appended := ["v1"] }
         signals := [("v1", { video_signal with files := none })]
         signal_idx := [], is_modified := true }, none) := by
  refine ⟨rfl, rfl, rfl, rfl, rfl, ?_⟩
  exact unsupported_modality_signal_still_added fetch_ok open_state
    { scenario := sc_1, appended := [] } video_signal rfl rfl rfl rfl rfl

/-- C6 counterexample: the claim states that a file whose fetch/convert
fails is omitted from the signal's stored file list.  With a fetch that
fails on every file, the stored list still contains the relative path of the
failed file — the append sits outside the `try`/`except`. -/
theorem media_failure_file_not_omitted :
    store_audio_files fetch_fail ["cltl-storage:audio/a1"] = ["audio/a1.wav"] ∧
    "audio/a1.wav" ∈ store_audio_files fetch_fail ["cltl-storage:audio/a1"] := by
  have h : store_audio_files fetch_fail ["cltl-storage:audio/a1"]
      = ["audio/a1.wav"] := by decide
  exact ⟨h, by rw [h]; exact List.mem_singleton.mpr rfl⟩

/-- C6 amended: if fetching or converting a referenced file fails, the
failure is logged and processing of the signal's remaining files and of the
signal itself continues (the functions are total, so no error propagates),
but the failed file is NOT omitted: the stored file list always equals the
relative paths of all referenced files, whatever the fetch outcomes. -/
theorem media_failure_logged_processing_continues (fetchOk : String → Bool)
    (files : List String) :
    store_audio_files fetchOk files =
      files.map (fun url => destination_relative url "wav") ∧
    store_image_files fetchOk files =
      files.map (fun url => destination_relative url "png") := by
  constructor
  · rw [store_audio_files, store_loop_eq "wav" fetchOk files []]
    simp
  · rw [store_image_files, store_loop_eq "png" fetchOk files []]
    simp

/-- C7: calling `add_signal`, `add_mention` or `add_mentions` while no
scenario is open returns without raising and leaves the state unchanged
(the serialization round trip is the identity on well-typed signals). -/
theorem no_open_scenario_noop (fetchOk : String → Bool) (st : StorageState)
    (sig : Signal) (m : Mention) (ms : List Mention)
    (h : st.controller = none) :
    add_signal fetchOk st sig = (st, none) ∧
    add_mention st m = (st, none) ∧
    add_mentions st ms = (st, none) := by
  refine ⟨?_, ?_, ?_⟩ <;> simp [add_signal, add_mention, add_mentions, h]

/-- Witness for C7's theorem on the freshly constructed storage state. -/
theorem no_open_scenario_noop_witness :
    empty_state.controller = none ∧
    add_signal fetch_ok empty_state fin_s1 = (empty_state, none) ∧
    add_mention empty_state mention_m1 = (empty_state, none) ∧
    add_mentions empty_state [mention_m1, mention_bad] = (empty_state, none) := by
  have h := no_open_scenario_noop fetch_ok empty_state fin_s1 mention_m1
    [mention_m1, mention_bad] rfl
  exact ⟨rfl, h.1, h.2.1, h.2.2⟩

/-- C8: `start_scenario` raises `ValueError` whenever a scenario is already
open — the new descriptor's id is never compared with the current one, so a
duplicate start with the same id fails too — and the state is returned
unchanged. -/
theorem start_scenario_always_fails_when_open (st : StorageState)
    (ctl : Controller) (sc : Scenario) (h : st.controller = some ctl) :
    start_scenario st sc =
      (st, some (PyError.valueError
        ("Scenarion " ++ ctl.scenario.id ++ " is already started, tried to start "
         ++ sc.id))) := by
  simp [start_scenario, h]

/-- Witness for C8's theorem: restarting with the SAME id `sc_1` still
fails and leaves the state untouched. -/
theorem start_scenario_always_fails_witness :
    open_state.controller = some { scenario := sc_1, appended := [] } ∧
    start_scenario open_state sc_1 =
      (open_state, some (PyError.valueError
        "Scenarion sc_1 is already started, tried to start sc_1")) := by
  refine ⟨rfl, ?_⟩
  rw [start_scenario_always_fails_when_open open_state
    { scenario := sc_1, appended := [] } sc_1 rfl]
  rfl

/-- C9: the claim states `GET /scenario/current/id` returns 200 with the
scenario id when a scenario is open and 404/empty otherwise.  The handler
invokes the misspelled attribute `get_current_scensario_id` on the storage,
which `EmissorDataFileStorage` does not define, so every request raises
`AttributeError` (HTTP 500) — independently of whether a scenario is open.
This theorem evaluates the handler on an arbitrary storage state. -/
theorem current_scenario_route_raises (st : StorageState) :
    get_current_scenario_route st =
      Except.error (PyError.attributeError "get_current_scensario_id") := by
  have h : ¬ (storage_method_names.contains current_scenario_route_attr = true) := by
    decide
  rw [get_current_scenario_route, if_neg h]
  rfl

/-- C10: for an element id absent from both the signal table and the element
index, the `GET /<element_id>/scenario/id` handler catches the `KeyError`
and responds 404 with the current scenario id as body. -/
theorem unresolved_element_route_404_current (st : StorageState)
    (element_id : String)
    (h1 : lookupA st.signals element_id = none)
    (h2 : lookupA st.signal_idx element_id = none) :
    get_scenario_id_route st element_id =
      Except.ok { body := get_current_scenario_id st, status := 404 } := by
  simp [get_scenario_id_route, get_scenario_for_id, h1, h2]

/-- Witness for C10's theorem: looking up an unknown element id on the open
`sc_1` state yields status 404 with body `sc_1`. -/
theorem unresolved_element_route_404_witness :
    lookupA open_state.signals "unknown" = none ∧
    lookupA open_state.signal_idx "unknown" = none ∧
    get_scenario_id_route open_state "unknown" =
      Except.ok { body := some "sc_1", status := 404 } := by
  refine ⟨rfl, rfl, ?_⟩
  rw [unresolved_element_route_404_current open_state "unknown" rfl rfl]
  rfl

/-- C2: resolution of a mention's container id while a scenario is open:
(1) a container id present in the signal table resolves directly and the
mention is appended to that signal's mention sequence; (2) a container id
absent from the table but registered in the element index resolves to the
registered owning signal and the mention is appended there; (3) a container
id in neither causes `add_mention` to fail with an error naming the
container id, leaving the state unchanged. -/
theorem mention_container_resolution (st : StorageState) (m : Mention)
    (seg : Segment) (rest : List Segment) (ctl : Controller)
    (hctl : st.controller = some ctl)
    (hseg : m.segment = seg :: rest) :
    (∀ sig, lookupA st.signals seg.container_id = some sig →
      add_mention st m =
        ({ st with
           signals := insertA st.signals seg.container_id
             { sig with mentions := sig.mentions ++ [m] }
           signal_idx := register_mention_ids st.signal_idx m seg.container_id
           is_modified := true }, none) ∧
      lookupA (insertA st.signals seg.container_id
          { sig with mentions := sig.mentions ++ [m] }) seg.container_id
        = some { sig with mentions := sig.mentions ++ [m] }) ∧
    (∀ owner sig, lookupA st.signals seg.container_id = none →
      lookupA st.signal_idx seg.container_id = some owner →
      lookupA st.signals owner = some sig →
      add_mention st m =
        ({ st with
           signals := insertA st.signals owner
             { sig with mentions := sig.mentions ++ [m] }
           signal_idx := register_mention_ids st.signal_idx m owner
           is_modified := true }, none) ∧
      lookupA (insertA st.signals owner
          { sig with mentions := sig.mentions ++ [m] }) owner
        = some { sig with mentions := sig.mentions ++ [m] }) ∧
    (lookupA st.signals seg.container_id = none →
      lookupA st.signal_idx seg.container_id = none →
      add_mention st m = (st, some (PyError.valueError
        (container_not_found_msg seg.container_id ctl.scenario.id m.id)))) := by
  refine ⟨?_, ?_, ?_⟩
  · intro sig hsig
    refine ⟨?_, lookupA_insertA_self _ _ _⟩
    simp [add_mention, hctl, add_mention_core, hseg, hsig]
  · intro owner sig hno hidx hsig
    refine ⟨?_, lookupA_insertA_self _ _ _⟩
    simp [add_mention, hctl, add_mention_core, hseg, hno, hidx, hsig]
  · intro hno hidx
    simp [add_mention, hctl, add_mention_core, hseg, hno, hidx,
      current_scenario_repr]

/-- Witness for C2's theorem, exercising all three branches: `mention_m1`
(container id `s1`, a signal) resolves directly; `mention_m2` (container id
`tok_1`, registered in the index of `leaked_state`) resolves to `s1`;
`mention_bad` (container id `nope`, unknown) fails naming `nope`. -/
theorem mention_container_resolution_witness :
    (state_with_s1.controller = some { scenario := sc_1, appended := ["s1"] } ∧
     mention_m1.segment = [{ container_id := "s1", bounds := [0, 0, 1, 1] }] ∧
     add_mention state_with_s1 mention_m1 =
       ({ state_with_s1 with
          signals := [("s1", { fin_s1 with mentions := [mention_m1] })]
          signal_idx := [("m_1", "s1"), ("tok_1", "s1")]
          is_modified := true }, none)) ∧
    (add_mention leaked_state mention_m2 =
       ({ leaked_state with
          signals := [("s1", { fin_s1 with mentions := [mention_m2] })]
          signal_idx := [("m_1", "s1"), ("tok_1", "s1"), ("m_2", "s1")]
          is_modified := true }, none)) ∧
    (add_mention state_with_s1 mention_bad =
       (state_with_s1, some (PyError.valueError
         (container_not_found_msg "nope" "sc_1" "m_bad")))) := by
  have h1 := mention_container_resolution state_with_s1 mention_m1
    { container_id := "s1", bounds := [0, 0, 1, 1] } []
    { scenario := sc_1, appended := ["s1"] } rfl rfl
  have h2 := mention_container_resolution leaked_state mention_m2
    { container_id := "tok_1", bounds := [] } []
    { scenario := sc_1, appended := ["s1"] } rfl rfl
  have h3 := mention_container_resolution state_with_s1 mention_bad
    { container_id := "nope", bounds := [] } []
    { scenario := sc_1, appended := ["s1"] } rfl rfl
  refine ⟨⟨rfl, rfl, ?_⟩, ?_, ?_⟩
  · exact (h1.1 fin_s1 rfl).1
  · exact (h2.2.1 "s1" fin_s1 rfl rfl rfl).1
  · exact h3.2.2 rfl rfl

/-- C4 counterexample: the claim states the batch is atomic — on failure the
signal table and element index are as before the `add_mentions` call.  On
the batch `[mention_m1, mention_bad]` the call raises on the second mention,
yet the first mention is already attached to `s1` and indexed: the state
differs from the pre-call state. -/
theorem add_mentions_not_atomic :
    (add_mentions state_with_s1 [mention_m1, mention_bad]).2
      = some (PyError.valueError (container_not_found_msg "nope" "sc_1" "m_bad")) ∧
    (add_mentions state_with_s1 [mention_m1, mention_bad]).1 ≠ state_with_s1 ∧
    lookupA (add_mentions state_with_s1 [mention_m1, mention_bad]).1.signals "s1"
      = some { fin_s1 with mentions := [mention_m1] } := by
  refine ⟨?_, ?_, ?_⟩ <;> decide

/-- C4 amended: within `add_mentions`, the first mention whose container id
cannot be resolved aborts processing of the remaining batch and the error
propagates, but the batch is NOT atomic: the mentions processed before the
failure remain applied — the state returned at the failure is the state
reached after the successful prefix, not the pre-call state. -/
theorem add_mentions_abort_on_first_failure (ms1 : List Mention) :
    ∀ (st st1 : StorageState) (m : Mention) (ms2 : List Mention) (e : PyError),
      st.controller.isSome = true →
      add_mentions_loop st ms1 = (st1, none) →
      add_mention_core st1 m = (st1, some e) →
      add_mentions st (ms1 ++ m :: ms2) = (st1, some e) := by
  have loop_eq : ∀ (ms1 : List Mention) (st st1 : StorageState) (m : Mention)
      (ms2 : List Mention) (e : PyError),
      add_mentions_loop st ms1 = (st1, none) →
      add_mention_core st1 m = (st1, some e) →
      add_mentions_loop st (ms1 ++ m :: ms2) = (st1, some e) := by
    intro ms1
    induction ms1 with
    | nil =>
        intro st st1 m ms2 e h1 h2
        have hst : st = st1 := congrArg Prod.fst h1
        subst hst
        simp [add_mentions_loop, h2]
    | cons x xs ih =>
        intro st st1 m ms2 e h1 h2
        rw [List.cons_append]
        cases hx : add_mention_core st x with
        | mk st' err =>
            cases err with
            | none =>
                rw [add_mentions_loop, hx]
                rw [add_mentions_loop, hx] at h1
                exact ih st' st1 m ms2 e h1 h2
            | some e' =>
                rw [add_mentions_loop, hx] at h1
                have h1' : ((st', some e') : StorageState × Option PyError)
                    = (st1, none) := h1
                exact absurd (congrArg Prod.snd h1') (by simp)
  intro st st1 m ms2 e hctl h1 h2
  obtain ⟨ctl, hctl'⟩ := Option.isSome_iff_exists.mp hctl
  simp only [add_mentions, hctl']
  exact loop_eq ms1 st st1 m ms2 e h1 h2

/-- Witness for C4's amended theorem: on `[mention_m1, mention_bad,
mention_mf]` the failure at `mention_bad` returns the post-`m_1` state with
the error; `mention_mf` is never processed. -/
theorem add_mentions_abort_witness :
    state_with_s1.controller.isSome = true ∧
    add_mentions_loop state_with_s1 [mention_m1] = (state_after_m1, none) ∧
    add_mention_core state_after_m1 mention_bad =
      (state_after_m1, some (PyError.valueError
        (container_not_found_msg "nope" "sc_1" "m_bad"))) ∧
    add_mentions state_with_s1 [mention_m1, mention_bad, mention_mf] =
      (state_after_m1, some (PyError.valueError
        (container_not_found_msg "nope" "sc_1" "m_bad"))) := by
  refine ⟨by decide, by decide, by decide, ?_⟩
  exact add_mentions_abort_on_first_failure [mention_m1] state_with_s1
    state_after_m1 mention_bad [mention_mf]
    (PyError.valueError (container_not_found_msg "nope" "sc_1" "m_bad"))
    (by decide) (by decide) (by decide)

/-- C1 counterexample: two concrete runs refute the claim as stated.
Run A: after preliminary `s1`, mention `m_1`, and a finalize for `s1` whose
own mention list is `[m_f]`, the stored signal's mentions are `[m_f]` — the
finalize event's list — and not the mentions added between the two events
(`[m_1]`): `_update` overwrites the accumulated `mentions` field whenever
the incoming value is non-empty.  Run B: for a text signal `t1`, the
finalize event's stored file value is `[]` (the empty list `add_signal`
computes for text) but the merged signal keeps `files = None` — `_update`
skips the falsy `[]` — so the stored files do not equal the finalize
event's value either. -/
theorem finalize_with_mentions_overwrites :
    ((add_signal fetch_ok open_state prelim_s1).2 = none ∧
     (add_mention (add_signal fetch_ok open_state prelim_s1).1 mention_m1).2
       = none ∧
     (add_signal fetch_ok
        (add_mention (add_signal fetch_ok open_state prelim_s1).1 mention_m1).1
        fin_s1_with_mentions).2 = none ∧
     (lookupA (add_signal fetch_ok
        (add_mention (add_signal fetch_ok open_state prelim_s1).1 mention_m1).1
        fin_s1_with_mentions).1.signals "s1").map Signal.mentions
       = some [mention_mf] ∧
     [mention_mf] ≠ [mention_m1]) ∧
    ((add_signal fetch_ok open_state prelim_t1).2 = none ∧
     (add_signal fetch_ok (add_signal fetch_ok open_state prelim_t1).1
        fin_t1).2 = none ∧
     compute_stored_files fetch_ok fin_t1
       = Except.ok (some ([] : List String)) ∧
     (lookupA (add_signal fetch_ok (add_signal fetch_ok open_state prelim_t1).1
        fin_t1).1.signals "t1").map Signal.files = some none ∧
     some (none : Option (List String)) ≠ some (some ([] : List String))) := by
  refine ⟨?_, ?_⟩ <;> decide

/-- C1 (amended): adding a preliminary signal (end unset) with a fresh id,
then mentions resolving to it — directly, or through element-index entries
registered by earlier mentions of the batch — then a finalizing update with
the same id (end set) whose own mention list is EMPTY and whose file
materialization succeeds with value `stored`, leaves exactly one stored
signal for that id, whose mentions are the preliminary signal's mentions
followed, in arrival order, by the mentions added between the two events;
whose time (hence end timestamp) equals the finalize event's; and whose
files are the finalize event's stored file list when that list is
non-empty, and stay unset (`None`, the preliminary's processed value) when
the finalize's stored value is empty or `None` — `_update`'s truthy-field
rule skips a falsy files value.  Without the empty-mention-list proviso the
merge overwrites the accumulated mentions, and for a falsy stored value the
files do not equal the finalize event's value (see the counterexample's two
runs). -/
theorem preliminary_then_finalize_merge
    (fetchOk : String → Bool) (st : StorageState) (ctl : Controller)
    (prelim fin : Signal) (ms : List Mention)
    (stored : Option (List String)) (e : Int)
    (hctl : st.controller = some ctl)
    (hfresh : countKey st.signals prelim.id = 0)
    (hpcid : prelim.time.container_id = ctl.scenario.id)
    (hpend : prelim.time.end_ = none)
    (hfid : fin.id = prelim.id)
    (hfcid : fin.time.container_id = ctl.scenario.id)
    (_hfend : fin.time.end_ = some e)
    (hfm : fin.mentions = [])
    (hstored : compute_stored_files fetchOk fin = Except.ok stored)
    (hms : chain_resolves st.signals prelim.id [] ms) :
    ∃ st1 st2 st3 merged,
      add_signal fetchOk st prelim = (st1, none) ∧
      add_mentions st1 ms = (st2, none) ∧
      add_signal fetchOk st2 fin = (st3, none) ∧
      countKey st3.signals prelim.id = 1 ∧
      lookupA st3.signals prelim.id = some merged ∧
      merged.mentions = prelim.mentions ++ ms ∧
      merged.time = fin.time ∧
      merged.files = (match stored with
        | some (f :: fs) => some (f :: fs)
        | _ => none) := by
  have hlook0 : lookupA st.signals prelim.id = none :=
    lookupA_eq_none_of_countKey_eq_zero _ _ hfresh
  have hstored0 : compute_stored_files fetchOk prelim = Except.ok none := by
    simp [compute_stored_files, hpend, truthyEnd]
  have h1 := add_signal_insert fetchOk st ctl prelim none hctl hpcid hstored0
    hlook0
  have hsig1 : lookupA
      (insertA st.signals prelim.id { prelim with files := none }) prelim.id
      = some { prelim with files := none } := lookupA_insertA_self _ _ _
  obtain ⟨st2, hloop, hc2, hl2, hcnt2⟩ :=
    add_mentions_loop_accumulates st.signals prelim.id ms []
      { st with
        controller := some { ctl with appended := ctl.appended ++ [prelim.id] }
        signals := insertA st.signals prelim.id { prelim with files := none }
        is_modified := true }
      { prelim with files := none } hsig1
      (fun cid hne => by
        show lookupA (insertA st.signals prelim.id _) cid
          = lookupA st.signals cid
        exact lookupA_insertA_ne _ _ _ _ hne)
      (fun cid hcid => absurd hcid (List.not_mem_nil cid))
      hms
  have h2 : add_mentions
      { st with
        controller := some { ctl with appended := ctl.appended ++ [prelim.id] }
        signals := insertA st.signals prelim.id { prelim with files := none }
        is_modified := true } ms = (st2, none) := hloop
  have hc2' : st2.controller =
      some { ctl with appended := ctl.appended ++ [prelim.id] } := hc2
  have hl2' : lookupA st2.signals fin.id =
      some { prelim with
        files := none,
        mentions := ({ prelim with files := none } : Signal).mentions ++ ms } := by
    rw [hfid]
    exact hl2
  have h3 := add_signal_merge fetchOk st2
    { ctl with appended := ctl.appended ++ [prelim.id] } fin
    { prelim with
      files := none,
      mentions := ({ prelim with files := none } : Signal).mentions ++ ms }
    stored hc2' hfcid hstored hl2'
  refine ⟨_, st2, _,
    update_fields
      { prelim with
        files := none,
        mentions := ({ prelim with files := none } : Signal).mentions ++ ms }
      { fin with files := stored },
    h1, h2, h3, ?_, ?_, ?_, ?_, ?_⟩
  · show countKey (insertA st2.signals fin.id _) prelim.id = 1
    rw [hfid, countKey_insertA_of_present _ _ _ _ hl2, hcnt2]
    show countKey (insertA st.signals prelim.id { prelim with files := none })
      prelim.id = 1
    have hx := countKey_insertA_self st.signals prelim.id
      { prelim with files := none }
    omega
  · show lookupA (insertA st2.signals fin.id _) prelim.id = some _
    rw [hfid]
    exact lookupA_insertA_self _ _ _
  · simp [update_fields, hfm]
  · simp [update_fields]
  · show (update_fields _ _).files = _
    rcases stored with _ | fls
    · simp [update_fields]
    · rcases fls with _ | ⟨f, fs⟩
      · simp [update_fields]
      · simp [update_fields]

/-- Witness for C1's amended theorem at the concrete run: preliminary audio
signal `s1`; mention `m_1` sitting directly on `s1`; mention `m_2` resolving
through the element index (its container `tok_1` was registered by `m_1`);
then finalize `fin_s1` (empty mention list, stored file list
`["audio/a1.wav"]`). -/
theorem preliminary_then_finalize_merge_witness :
    open_state.controller = some { scenario := sc_1, appended := [] } ∧
    countKey open_state.signals prelim_s1.id = 0 ∧
    prelim_s1.time.container_id = sc_1.id ∧
    prelim_s1.time.end_ = none ∧
    fin_s1.id = prelim_s1.id ∧
    fin_s1.time.container_id = sc_1.id ∧
    fin_s1.time.end_ = some 1 ∧
    fin_s1.mentions = [] ∧
    compute_stored_files fetch_ok fin_s1 = Except.ok (some ["audio/a1.wav"]) ∧
    chain_resolves open_state.signals prelim_s1.id []
      [mention_m1, mention_m2] ∧
    (∃ st1 st2 st3 merged,
      add_signal fetch_ok open_state prelim_s1 = (st1, none) ∧
      add_mentions st1 [mention_m1, mention_m2] = (st2, none) ∧
      add_signal fetch_ok st2 fin_s1 = (st3, none) ∧
      countKey st3.signals prelim_s1.id = 1 ∧
      lookupA st3.signals prelim_s1.id = some merged ∧
      merged.mentions = prelim_s1.mentions ++ [mention_m1, mention_m2] ∧
      merged.time = fin_s1.time ∧
      merged.files = some ["audio/a1.wav"]) := by
  have hms : chain_resolves open_state.signals prelim_s1.id []
      [mention_m1, mention_m2] := by
    simp only [chain_resolves]
    exact ⟨⟨{ container_id := "s1", bounds := [0, 0, 1, 1] }, [], rfl,
        Or.inl rfl⟩,
      ⟨{ container_id := "tok_1", bounds := [] }, [], rfl,
        Or.inr ⟨rfl, by decide⟩⟩, trivial⟩
  refine ⟨rfl, rfl, rfl, rfl, rfl, rfl, rfl, rfl, by decide, hms, ?_⟩
  exact preliminary_then_finalize_merge fetch_ok open_state
    { scenario := sc_1, appended := [] } prelim_s1 fin_s1
    [mention_m1, mention_m2] (some ["audio/a1.wav"]) 1
    rfl rfl rfl rfl rfl rfl rfl rfl (by decide) hms

end EmissorData
